import Mathlib

/-!
The X-Clacks-Overhead middleware of package `clacks`.

A shallow embedding of `clacks.go` (package `clacks`) and of the parts of the Go
standard library its two statements run on:

* `net/textproto`: `CanonicalMIMEHeaderKey`, `MIMEHeader.Set`, `MIMEHeader.Get`;
* `net/http`: `Header`, `Handler`, `HandlerFunc`;
* `net/http/httptest`: `ResponseRecorder`, the response writer of `clacks_test.go`.

A handler mutates the response writer it is given and either returns or panics.
It is embedded as a function from the writer's state and the request to an
`Outcome`: the writer's state when the call ends, and the panic value if any.
-/

namespace clacks

/-! ## Constants of `clacks.go` -/

/-- HeaderName is the name of the Clacks Overhead header. -/
def HeaderName : String := "X-Clacks-Overhead"

/-- HeaderValue is the standard GNU Terry Pratchett value. -/
def HeaderValue : String := "GNU Terry Pratchett"

/-! ## `net/textproto`: canonical header keys -/

/-- Token bytes of RFC 7230 (Go's validHeaderFieldByte): the digits, the letters
and the fifteen punctuation bytes listed by their ASCII codes (exclamation mark,
hash, dollar, percent, ampersand, single quote, star, plus, minus, dot, caret,
underscore, grave accent, bar, tilde); every byte from 128 on is refused. -/
def validHeaderFieldByte (c : Nat) : Bool :=
  (48 ≤ c && c ≤ 57) || (97 ≤ c && c ≤ 122) || (65 ≤ c && c ≤ 90) ||
    [33, 35, 36, 37, 38, 39, 42, 43, 45, 46, 94, 95, 96, 124, 126].contains c

/-- The byte of a character, for the ASCII tests of `textproto`; a character
outside ASCII is made of bytes from 128 on, none of which is a token byte. -/
def byteOf (c : Char) : Nat := c.toNat

/-- Second loop of `canonicalMIMEHeaderKey`: upper case for the first letter and
after each dash, lower case elsewhere (`toLower = 'a' - 'A' = 32`). -/
def canonicalizeLoop : Bool → List Char → List Char
  | _, [] => []
  | upper, c :: cs =>
    let c1 :=
      if upper && (97 ≤ byteOf c && byteOf c ≤ 122) then Char.ofNat (byteOf c - 32)
      else if !upper && (65 ≤ byteOf c && byteOf c ≤ 90) then Char.ofNat (byteOf c + 32)
      else c
    c1 :: canonicalizeLoop (c1 == '-') cs

/-- Go's `canonicalMIMEHeaderKey`: a key holding a byte that is not a token byte
is returned unchanged (at once, or through `noCanon` when the byte is a space);
otherwise the key is rewritten by the canonicalising loop. The final lookup in
`commonHeader` returns a string with the same bytes. -/
def canonicalMIMEHeaderKey (a : List Char) : List Char :=
  if a.all (fun c => validHeaderFieldByte (byteOf c)) then canonicalizeLoop true a else a

/-- Quick check of `CanonicalMIMEHeaderKey`: scan the key `s`; return it as it is
on a byte that is not a token byte, hand it to `canonicalMIMEHeaderKey` on the
first letter in the wrong case, and return it as it is when the scan ends. -/
def canonicalScan (s : List Char) : Bool → List Char → List Char
  | _, [] => s
  | upper, c :: cs =>
    if !validHeaderFieldByte (byteOf c) then s
    else if upper && (97 ≤ byteOf c && byteOf c ≤ 122) then canonicalMIMEHeaderKey s
    else if !upper && (65 ≤ byteOf c && byteOf c ≤ 90) then canonicalMIMEHeaderKey s
    else canonicalScan s (c == '-') cs

/-- Go's `textproto.CanonicalMIMEHeaderKey`. -/
def CanonicalMIMEHeaderKey (s : String) : String :=
  String.mk (canonicalScan s.data true s.data)

/-! ## `net/http`: headers -/

/-- A Go `http.Header` is a `map[string][]string`. A key that is absent is
`none`; a nil map and an empty map read the same and are both `fun _ => none`
(every `Header()` below hands out a map that can be written). -/
abbrev Header := String → Option (List String)

/-- The map assignment `h[key] = vs`. -/
def Header.assign (h : Header) (key : String) (vs : List String) : Header :=
  fun k => if k = key then some vs else h k

/-- Go's `Header.Set`: `h[CanonicalMIMEHeaderKey(key)] = []string{value}`. -/
def Header.Set (h : Header) (key value : String) : Header :=
  h.assign (CanonicalMIMEHeaderKey key) [value]

/-- Go's `Header.Get`: the first value of the canonical key, `""` when the key
is absent or holds no value. -/
def Header.Get (h : Header) (key : String) : String :=
  match h (CanonicalMIMEHeaderKey key) with
  | some (v :: _) => v
  | _ => ""

/-! ## `net/http` and `net/http/httptest`: requests, response writers, handlers -/

/-- A byte slice. -/
abbrev Bytes := List UInt8

/-- The conversion `[]byte(s)`. -/
def bytesOf (s : String) : Bytes := s.toUTF8.data.toList

/-- The fields of `http.Request` that routing reads. -/
structure Request where
  Method : String
  Path : String

/-- Go's `httptest.NewRequest(method, target, nil)`. -/
def NewRequest (method target : String) : Request := ⟨method, target⟩

/-- Go's `httptest.ResponseRecorder`: the `http.ResponseWriter` of the tests.
`Body` is `none` for a nil buffer; `snapHeader` is the copy of the header map
taken when the status line is written. -/
structure ResponseRecorder where
  Code : Int
  HeaderMap : Header
  Body : Option Bytes
  Flushed : Bool
  snapHeader : Option Header
  wroteHeader : Bool

/-- Go's `httptest.NewRecorder()`. -/
def NewRecorder : ResponseRecorder :=
  { Code := 200, HeaderMap := fun _ => none, Body := some [], Flushed := false,
    snapHeader := none, wroteHeader := false }

/-- The value a Go `panic` carries; here the message it prints. -/
abbrev PanicValue := String

/-- How a call on a response writer ends: the state of the writer, and the
value of the panic when the call did not return. -/
structure Outcome where
  rw : ResponseRecorder
  panicked : Option PanicValue

/-- A call that returns. -/
def Outcome.ok (rw : ResponseRecorder) : Outcome := ⟨rw, none⟩

/-- Sequencing of two statements: the second runs only when the first returned. -/
def Outcome.andThen (o : Outcome) (f : ResponseRecorder → Outcome) : Outcome :=
  match o.panicked with
  | none => f o.rw
  | some _ => o

/-- Go's `(*ResponseRecorder).Header()`: the header map of the recorder, created
when nil. The map is shared with the recorder, so a write through it is a write
to `HeaderMap` (see `withHeader`). -/
def ResponseRecorder.Header (rw : ResponseRecorder) : clacks.Header := rw.HeaderMap

/-- The recorder after its header map has been mutated into `h`. -/
def ResponseRecorder.withHeader (rw : ResponseRecorder) (h : clacks.Header) :
    ResponseRecorder :=
  { rw with HeaderMap := h }

/-- Go's `(*ResponseRecorder).WriteHeader(code)`: ignored once the header is
written; panics on a code outside 100..999 (`checkWriteHeaderCode`); otherwise
records the code and snapshots the header map. -/
def ResponseRecorder.WriteHeader (rw : ResponseRecorder) (code : Int) : Outcome :=
  if rw.wroteHeader then Outcome.ok rw
  else if code < 100 ∨ code > 999 then ⟨rw, some ("invalid WriteHeader code " ++ toString code)⟩
  else Outcome.ok { rw with Code := code, wroteHeader := true, snapHeader := some rw.HeaderMap }

/-- Go's `(*ResponseRecorder).writeHeader(b, "")`, the implicit header write of
`Write`: nothing once the header is written; otherwise `Content-Type` is set to
the sniffed type of `b` unless the map has a `Content-Type` key or a non-empty
`Transfer-Encoding`, and `WriteHeader(200)` follows. `DetectContentType` stands
for `http.DetectContentType`. -/
def ResponseRecorder.writeHeader (DetectContentType : Bytes → String)
    (rw : ResponseRecorder) (b : Bytes) : Outcome :=
  if rw.wroteHeader then Outcome.ok rw
  else
    let m := rw.Header
    let hasType := (m "Content-Type").isSome
    let hasTE := m.Get "Transfer-Encoding" != ""
    let rw1 :=
      if !hasType && !hasTE then rw.withHeader (m.Set "Content-Type" (DetectContentType b))
      else rw
    rw1.WriteHeader 200

/-- Go's `(*ResponseRecorder).Write(buf)`: the implicit header write, then the
bytes are appended to `Body` when the buffer is not nil. -/
def ResponseRecorder.Write (DetectContentType : Bytes → String)
    (rw : ResponseRecorder) (buf : Bytes) : Outcome :=
  (rw.writeHeader DetectContentType buf).andThen fun rw1 =>
    Outcome.ok { rw1 with Body := rw1.Body.map (· ++ buf) }

/-- Go's `http.Handler`: anything with `ServeHTTP(w, r)`. -/
structure Handler where
  ServeHTTP : ResponseRecorder → Request → Outcome

/-- Go's `http.HandlerFunc`: a function used as a handler. -/
def HandlerFunc (f : ResponseRecorder → Request → Outcome) : Handler := ⟨f⟩

/-! ## `clacks.go` -/

/-- Clacks adds the X-Clacks-Overhead header to all HTTP responses: the returned
handler runs `w.Header().Set(HeaderName, HeaderValue)` and then
`next.ServeHTTP(w, r)`. -/
def Clacks (next : Handler) : Handler :=
  HandlerFunc fun w r =>
    let w1 := w.withHeader (w.Header.Set HeaderName HeaderValue)
    next.ServeHTTP w1 r

/-! ## Handlers of `clacks_test.go` -/

/-- The handler of `TestMiddleware`: `w.WriteHeader(http.StatusOK)` and then
`w.Write([]byte("Hello, World!"))`. -/
def helloWorldHandler (DetectContentType : Bytes → String) : Handler :=
  HandlerFunc fun w _ =>
    (w.WriteHeader 200).andThen fun w1 => w1.Write DetectContentType (bytesOf "Hello, World!")

/-- The handlers of `TestMiddlewareWithServeMux`: `w.Write([]byte(body))`. -/
def writeHandler (DetectContentType : Bytes → String) (body : String) : Handler :=
  HandlerFunc fun w _ => w.Write DetectContentType (bytesOf body)

/-- The handler of `TestMiddlewarePreservesExistingHeaders`: sets `Content-Type`
and `X-Custom-Header`, writes status 200 and a JSON body. -/
def jsonHandler (DetectContentType : Bytes → String) : Handler :=
  HandlerFunc fun w _ =>
    let w1 := w.withHeader (w.Header.Set "Content-Type" "application/json")
    let w2 := w1.withHeader (w1.Header.Set "X-Custom-Header" "custom-value")
    (w2.WriteHeader 200).andThen fun w3 =>
      w3.Write DetectContentType (bytesOf "\x7b\"message\":\"ok\"\x7d")

/-- The request of the tests: `httptest.NewRequest(http.MethodGet, path, nil)`. -/
def getRequest (path : String) : Request := NewRequest "GET" path

/-- The value of `http.DetectContentType` on the bodies of the tests, which match
no signature and hold no binary byte. -/
def detectText : Bytes → String := fun _ => "text/plain; charset=utf-8"

/-! ## Other handlers

Handlers a caller may wrap that write or read the header of the middleware. -/

/-- A handler that sets the header of the middleware itself:
`w.Header().Set(HeaderName, v)`, then status 200. -/
def overwriteHandler (v : String) : Handler :=
  HandlerFunc fun w _ =>
    (w.withHeader (w.Header.Set HeaderName v)).WriteHeader 200

/-- A handler that sets the header of the middleware twice:
`w.Header().Set(HeaderName, "a")`, `w.Header().Set(HeaderName, "b")`, then
status 200. -/
def setTwiceHandler : Handler :=
  HandlerFunc fun w _ =>
    let w1 := w.withHeader (w.Header.Set HeaderName "a")
    let w2 := w1.withHeader (w1.Header.Set HeaderName "b")
    w2.WriteHeader 200

/-- A handler that copies the header to another key:
`w.Header().Set("X-Copy", w.Header().Get(HeaderName))`. -/
def copyHandler : Handler :=
  HandlerFunc fun w _ =>
    Outcome.ok (w.withHeader (w.Header.Set "X-Copy" (w.Header.Get HeaderName)))

/-- A handler that writes the header it finds as its body:
`w.Write([]byte(w.Header().Get(HeaderName)))`. -/
def echoHandler (DetectContentType : Bytes → String) : Handler :=
  HandlerFunc fun w _ => w.Write DetectContentType (bytesOf (w.Header.Get HeaderName))

/-- A handler whose status depends on the header it finds:
`if w.Header().Get(HeaderName) != "" { w.WriteHeader(http.StatusTeapot) }`. -/
def probeHandler : Handler :=
  HandlerFunc fun w _ =>
    if w.Header.Get HeaderName ≠ "" then w.WriteHeader 418 else Outcome.ok w

/-! ## Routers -/

/-- A router over exact paths: the request goes to the handler registered for
its path, or to `fallback` when no route has that path. -/
def exactRouter (routes : List (String × Handler)) (fallback : Handler) : Handler :=
  HandlerFunc fun w r =>
    match routes.lookup r.Path with
    | some h => h.ServeHTTP w r
    | none => fallback.ServeHTTP w r

/-- The fallback of the routers below: status 404. -/
def notFound : Handler := HandlerFunc fun w _ => w.WriteHeader 404

/-- The router of `TestMiddlewareWithServeMux`: `/hello` and `/world`. -/
def testMux (DetectContentType : Bytes → String) : Handler :=
  exactRouter [("/hello", writeHandler DetectContentType "hello"),
    ("/world", writeHandler DetectContentType "world")] notFound

/-! ## Observations used by the statements -/

/-- The recorder `w` with the entry of `key` in its header map replaced by `e`
(`none`: the key is absent). -/
def ResponseRecorder.withEntry (w : ResponseRecorder) (key : String)
    (e : Option (List String)) : ResponseRecorder :=
  { w with HeaderMap := fun k => if k = key then e else w.HeaderMap k }

/-! ## Lemmas on the standard library model -/

theorem canonical_HeaderName : CanonicalMIMEHeaderKey HeaderName = HeaderName := by decide

theorem canonical_ContentType : CanonicalMIMEHeaderKey "Content-Type" = "Content-Type" := by
  decide

theorem canonical_Custom :
    CanonicalMIMEHeaderKey "X-Custom-Header" = "X-Custom-Header" := by decide

theorem Set_HeaderName_self (h : Header) (v : String) :
    (h.Set HeaderName v) HeaderName = some [v] := by
  simp [Header.Set, Header.assign, canonical_HeaderName]

theorem Set_HeaderName_other (h : Header) (v k : String) (hk : k ≠ HeaderName) :
    (h.Set HeaderName v) k = h k := by
  simp [Header.Set, Header.assign, canonical_HeaderName, hk]

theorem Get_of_entry (h : Header) (v : String) (he : h HeaderName = some [v]) :
    h.Get HeaderName = v := by
  simp [Header.Get, canonical_HeaderName, he]

/-- Setting the header of the middleware replaces one entry of the map. -/
theorem withHeader_Set_HeaderName (w : ResponseRecorder) (v : String) :
    w.withHeader (w.Header.Set HeaderName v) = w.withEntry HeaderName (some [v]) := by
  unfold ResponseRecorder.withHeader ResponseRecorder.withEntry ResponseRecorder.Header
    Header.Set Header.assign
  rw [canonical_HeaderName]

/-- Setting the header twice is setting it once. -/
theorem withHeader_Set_twice (w : ResponseRecorder) (k v : String) :
    (w.withHeader (w.Header.Set k v)).withHeader
        ((w.withHeader (w.Header.Set k v)).Header.Set k v) =
      w.withHeader (w.Header.Set k v) := by
  unfold ResponseRecorder.withHeader ResponseRecorder.Header Header.Set Header.assign
  congr 1
  funext x
  by_cases hx : x = CanonicalMIMEHeaderKey k <;> simp [hx]

theorem WriteHeader_HeaderMap (w : ResponseRecorder) (code : Int) :
    (w.WriteHeader code).rw.HeaderMap = w.HeaderMap := by
  unfold ResponseRecorder.WriteHeader
  split_ifs <;> rfl

theorem WriteHeader_Body (w : ResponseRecorder) (code : Int) :
    (w.WriteHeader code).rw.Body = w.Body := by
  unfold ResponseRecorder.WriteHeader
  split_ifs <;> rfl

theorem WriteHeader_ok (w : ResponseRecorder) (code : Int) (h1 : 100 ≤ code)
    (h2 : code ≤ 999) : (w.WriteHeader code).panicked = none := by
  unfold ResponseRecorder.WriteHeader
  split_ifs with h3 h4
  · rfl
  · omega
  · rfl

theorem WriteHeader_wrote (w : ResponseRecorder) (code : Int) (h1 : 100 ≤ code)
    (h2 : code ≤ 999) : (w.WriteHeader code).rw.wroteHeader = true := by
  unfold ResponseRecorder.WriteHeader
  split_ifs with h3 h4
  · exact h3
  · omega
  · rfl

/-- The snapshot `WriteHeader(code)` takes when no status was written before: the
header map as it is at that moment. -/
theorem WriteHeader_snap (w : ResponseRecorder) (code : Int) (h1 : 100 ≤ code)
    (h2 : code ≤ 999) (hw : w.wroteHeader = false) :
    (w.WriteHeader code).rw.snapHeader = some w.HeaderMap := by
  unfold ResponseRecorder.WriteHeader
  split_ifs with h3 h4
  · simp [hw] at h3
  · omega
  · rfl

/-- The status after `WriteHeader(code)` with a valid code: the code, unless a
status had been written before. -/
theorem WriteHeader_Code (w : ResponseRecorder) (code : Int) (h1 : 100 ≤ code)
    (h2 : code ≤ 999) :
    (w.WriteHeader code).rw.Code = if w.wroteHeader then w.Code else code := by
  unfold ResponseRecorder.WriteHeader
  split_ifs with h3 h4
  · rfl
  · omega
  · rfl

theorem writeHeader_ok (D : Bytes → String) (w : ResponseRecorder) (b : Bytes) :
    (w.writeHeader D b).panicked = none := by
  unfold ResponseRecorder.writeHeader
  split_ifs
  · rfl
  · exact WriteHeader_ok _ 200 (by decide) (by decide)

theorem writeHeader_Body (D : Bytes → String) (w : ResponseRecorder) (b : Bytes) :
    (w.writeHeader D b).rw.Body = w.Body := by
  unfold ResponseRecorder.writeHeader
  split_ifs
  · rfl
  · rw [WriteHeader_Body]
    split_ifs <;> rfl

theorem writeHeader_Code (D : Bytes → String) (w : ResponseRecorder) (b : Bytes) :
    (w.writeHeader D b).rw.Code = if w.wroteHeader then w.Code else 200 := by
  unfold ResponseRecorder.writeHeader
  split_ifs with h1
  · rfl
  · rw [WriteHeader_Code _ 200 (by decide) (by decide)]
    split_ifs <;> simp_all [ResponseRecorder.withHeader]

/-- The implicit header write touches no key but `Content-Type`. -/
theorem writeHeader_HeaderMap (D : Bytes → String) (w : ResponseRecorder) (b : Bytes)
    (k : String) (hk : k ≠ "Content-Type") :
    (w.writeHeader D b).rw.HeaderMap k = w.HeaderMap k := by
  unfold ResponseRecorder.writeHeader
  split_ifs
  · rfl
  · rw [WriteHeader_HeaderMap]
    split_ifs
    · simp [ResponseRecorder.withHeader, ResponseRecorder.Header, Header.Set, Header.assign,
        canonical_ContentType, hk]
    · rfl

/-- What `Write` does to the body: the bytes are appended. -/
theorem Write_Body (D : Bytes → String) (w : ResponseRecorder) (buf : Bytes) :
    (w.Write D buf).rw.Body = w.Body.map (· ++ buf) := by
  unfold ResponseRecorder.Write Outcome.andThen
  have h := writeHeader_ok D w buf
  have hb := writeHeader_Body D w buf
  split
  · simp [Outcome.ok, hb]
  · simp_all

theorem Write_Code (D : Bytes → String) (w : ResponseRecorder) (buf : Bytes) :
    (w.Write D buf).rw.Code = if w.wroteHeader then w.Code else 200 := by
  unfold ResponseRecorder.Write Outcome.andThen
  have h := writeHeader_ok D w buf
  have hc := writeHeader_Code D w buf
  split
  · simp [Outcome.ok, hc]
  · simp_all

theorem Write_HeaderMap (D : Bytes → String) (w : ResponseRecorder) (buf : Bytes)
    (k : String) (hk : k ≠ "Content-Type") :
    (w.Write D buf).rw.HeaderMap k = w.HeaderMap k := by
  unfold ResponseRecorder.Write Outcome.andThen
  have h := writeHeader_ok D w buf
  have hm := writeHeader_HeaderMap D w buf k hk
  split
  · simp [Outcome.ok, hm]
  · simp_all

/-- Running after a statement that returned. -/
theorem andThen_ok (o : Outcome) (f : ResponseRecorder → Outcome) (h : o.panicked = none) :
    o.andThen f = f o.rw := by
  unfold Outcome.andThen
  split
  · rfl
  · simp_all

theorem Write_HeaderMap_wrote (D : Bytes → String) (w : ResponseRecorder) (buf : Bytes)
    (hw : w.wroteHeader = true) : (w.Write D buf).rw.HeaderMap = w.HeaderMap := by
  unfold ResponseRecorder.Write Outcome.andThen ResponseRecorder.writeHeader
  simp [hw, Outcome.ok]

/-! ## Lemmas on the handlers -/

theorem helloWorldHandler_serve (D : Bytes → String) (w : ResponseRecorder) (r : Request) :
    (helloWorldHandler D).ServeHTTP w r =
      ((w.WriteHeader 200).rw).Write D (bytesOf "Hello, World!") := by
  show (w.WriteHeader 200).andThen (fun w1 => w1.Write D (bytesOf "Hello, World!")) = _
  exact andThen_ok _ _ (WriteHeader_ok w 200 (by decide) (by decide))

theorem helloWorldHandler_HeaderMap (D : Bytes → String) (w : ResponseRecorder) (r : Request) :
    ((helloWorldHandler D).ServeHTTP w r).rw.HeaderMap = w.HeaderMap := by
  rw [helloWorldHandler_serve,
    Write_HeaderMap_wrote D _ _ (WriteHeader_wrote w 200 (by decide) (by decide)),
    WriteHeader_HeaderMap]

theorem helloWorldHandler_Body (D : Bytes → String) (w : ResponseRecorder) (r : Request) :
    ((helloWorldHandler D).ServeHTTP w r).rw.Body =
      w.Body.map (· ++ bytesOf "Hello, World!") := by
  rw [helloWorldHandler_serve, Write_Body, WriteHeader_Body]

theorem helloWorldHandler_Code (D : Bytes → String) (w : ResponseRecorder) (r : Request) :
    ((helloWorldHandler D).ServeHTTP w r).rw.Code = if w.wroteHeader then w.Code else 200 := by
  rw [helloWorldHandler_serve, Write_Code,
    WriteHeader_wrote w 200 (by decide) (by decide),
    WriteHeader_Code w 200 (by decide) (by decide)]
  simp

theorem jsonHandler_ContentType (D : Bytes → String) (w : ResponseRecorder) (r : Request) :
    ((jsonHandler D).ServeHTTP w r).rw.HeaderMap "Content-Type" = some ["application/json"] := by
  unfold jsonHandler HandlerFunc
  simp only
  rw [andThen_ok _ _ (WriteHeader_ok _ 200 (by decide) (by decide)),
    Write_HeaderMap_wrote D _ _ (WriteHeader_wrote _ 200 (by decide) (by decide)),
    WriteHeader_HeaderMap]
  simp [ResponseRecorder.withHeader, ResponseRecorder.Header, Header.Set, Header.assign,
    canonical_ContentType, canonical_Custom]

theorem jsonHandler_Custom (D : Bytes → String) (w : ResponseRecorder) (r : Request) :
    ((jsonHandler D).ServeHTTP w r).rw.HeaderMap "X-Custom-Header" = some ["custom-value"] := by
  unfold jsonHandler HandlerFunc
  simp only
  rw [andThen_ok _ _ (WriteHeader_ok _ 200 (by decide) (by decide)),
    Write_HeaderMap_wrote D _ _ (WriteHeader_wrote _ 200 (by decide) (by decide)),
    WriteHeader_HeaderMap]
  simp [ResponseRecorder.withHeader, ResponseRecorder.Header, Header.Set, Header.assign,
    canonical_ContentType, canonical_Custom]

theorem writeHandler_entry (D : Bytes → String) (body : String) (w : ResponseRecorder)
    (r : Request) :
    ((writeHandler D body).ServeHTTP w r).rw.HeaderMap HeaderName = w.HeaderMap HeaderName := by
  unfold writeHandler HandlerFunc
  exact Write_HeaderMap D w _ HeaderName (by decide)

theorem writeHandler_Body (D : Bytes → String) (body : String) (w : ResponseRecorder)
    (r : Request) :
    ((writeHandler D body).ServeHTTP w r).rw.Body = w.Body.map (· ++ bytesOf body) := by
  unfold writeHandler HandlerFunc
  exact Write_Body D w _

theorem writeHandler_Code (D : Bytes → String) (body : String) (w : ResponseRecorder)
    (r : Request) :
    ((writeHandler D body).ServeHTTP w r).rw.Code = if w.wroteHeader then w.Code else 200 := by
  unfold writeHandler HandlerFunc
  exact Write_Code D w _

/-- What the middleware does, in one equation. -/
theorem Clacks_serve (next : Handler) (w : ResponseRecorder) (r : Request) :
    (Clacks next).ServeHTTP w r =
      next.ServeHTTP (w.withHeader (w.Header.Set HeaderName HeaderValue)) r := rfl

theorem testMux_dispatch (D : Bytes → String) (p : String) (h : Handler)
    (hmem : (p, h) ∈ [("/hello", writeHandler D "hello"), ("/world", writeHandler D "world")])
    (w : ResponseRecorder) (r : Request) (hpath : r.Path = p) :
    (testMux D).ServeHTTP w r = h.ServeHTTP w r := by
  simp only [List.mem_cons, Prod.mk.injEq, List.mem_singleton, List.not_mem_nil, or_false] at hmem
  rcases hmem with ⟨hp, hh⟩ | ⟨hp, hh⟩
  · subst hp hh
    simp [testMux, exactRouter, HandlerFunc, List.lookup, hpath]
  · subst hp hh
    simp [testMux, exactRouter, HandlerFunc, List.lookup, hpath]

/-! ## The contract of the middleware -/

/-- C1, as stated, fails: wrapped around a handler that sets `X-Clacks-Overhead`
itself, the middleware leaves that handler's value, not `GNU Terry Pratchett`. -/
theorem presence_counterexample :
    ((Clacks (overwriteHandler "other")).ServeHTTP NewRecorder (getRequest "/")).rw.Header.Get
        HeaderName ≠ HeaderValue := by
  decide

/-- C1 (presence), amended: when the wrapped handler leaves the entry
`X-Clacks-Overhead` of the header map as it finds it, then after `Clacks next`
has served `r` on `w`, looking up `HeaderName` returns `HeaderValue`. -/
theorem Clacks_presence (next : Handler) (w : ResponseRecorder) (r : Request)
    (hkeep : ∀ w0, (next.ServeHTTP w0 r).rw.HeaderMap HeaderName = w0.HeaderMap HeaderName) :
    ((Clacks next).ServeHTTP w r).rw.Header.Get HeaderName = HeaderValue := by
  apply Get_of_entry
  rw [Clacks_serve]
  show (next.ServeHTTP _ r).rw.HeaderMap HeaderName = _
  rw [hkeep]
  exact Set_HeaderName_self w.Header HeaderValue

/-- C1 on `TestMiddleware`: the recorder of the test carries the header. -/
theorem Clacks_presence_witness :
    ((Clacks (helloWorldHandler detectText)).ServeHTTP NewRecorder (getRequest "/")).rw.Header.Get
        HeaderName = HeaderValue :=
  Clacks_presence (helloWorldHandler detectText) NewRecorder (getRequest "/")
    (fun w0 => by rw [helloWorldHandler_HeaderMap])

/-- C2 (ordering and delegation): `Clacks next` serving `r` on `w` is `next`
serving the same `r` on `w` with header `HeaderName` set to the single value
`HeaderValue`; the map `next` is handed holds exactly `["GNU Terry Pratchett"]`
at `X-Clacks-Overhead`, whatever `w` held there. -/
theorem Clacks_delegates (next : Handler) (w : ResponseRecorder) (r : Request) :
    (Clacks next).ServeHTTP w r =
        next.ServeHTTP (w.withHeader (w.Header.Set HeaderName HeaderValue)) r ∧
      (w.withHeader (w.Header.Set HeaderName HeaderValue)).HeaderMap "X-Clacks-Overhead" =
        some ["GNU Terry Pratchett"] :=
  ⟨rfl, Set_HeaderName_self w.Header HeaderValue⟩

/-- C3, as stated, fails: a handler that copies the header it finds to the key
`X-Copy` leaves different values at `X-Copy` with and without the middleware. -/
theorem preservation_counterexample :
    "X-Copy" ≠ HeaderName ∧
      ((Clacks copyHandler).ServeHTTP NewRecorder (getRequest "/")).rw.HeaderMap "X-Copy" ≠
        (copyHandler.ServeHTTP NewRecorder (getRequest "/")).rw.HeaderMap "X-Copy" := by
  decide

/-- C3 (header preservation), amended: for a key `k` whose final values under
`next` do not depend on what the entry `X-Clacks-Overhead` held when `next`
started, the values of `k` after `Clacks next` serves `r` on `w` are the values
of `k` after `next` serves `r` on `w` directly. -/
theorem Clacks_preserves_headers (next : Handler) (w : ResponseRecorder) (r : Request)
    (k : String)
    (hind : ∀ w0 e, (next.ServeHTTP (w0.withEntry HeaderName e) r).rw.HeaderMap k =
      (next.ServeHTTP w0 r).rw.HeaderMap k) :
    ((Clacks next).ServeHTTP w r).rw.HeaderMap k = (next.ServeHTTP w r).rw.HeaderMap k := by
  rw [Clacks_serve, withHeader_Set_HeaderName]
  exact hind w _

/-- C3 on `TestMiddlewarePreservesExistingHeaders`: `Content-Type` and
`X-Custom-Header` are the same with and without the middleware. -/
theorem Clacks_preserves_headers_witness :
    ((Clacks (jsonHandler detectText)).ServeHTTP NewRecorder (getRequest "/")).rw.HeaderMap
          "Content-Type" =
        ((jsonHandler detectText).ServeHTTP NewRecorder (getRequest "/")).rw.HeaderMap
          "Content-Type" ∧
      ((Clacks (jsonHandler detectText)).ServeHTTP NewRecorder (getRequest "/")).rw.HeaderMap
          "X-Custom-Header" =
        ((jsonHandler detectText).ServeHTTP NewRecorder (getRequest "/")).rw.HeaderMap
          "X-Custom-Header" :=
  ⟨Clacks_preserves_headers (jsonHandler detectText) NewRecorder (getRequest "/") "Content-Type"
      (fun w0 e => by rw [jsonHandler_ContentType, jsonHandler_ContentType]),
    Clacks_preserves_headers (jsonHandler detectText) NewRecorder (getRequest "/")
      "X-Custom-Header" (fun w0 e => by rw [jsonHandler_Custom, jsonHandler_Custom])⟩

/-- C4, as stated, fails: a handler that writes the header it finds as its body
produces the body `GNU Terry Pratchett` when wrapped and an empty body alone. -/
theorem body_counterexample :
    ((Clacks (echoHandler detectText)).ServeHTTP NewRecorder (getRequest "/")).rw.Body ≠
      ((echoHandler detectText).ServeHTTP NewRecorder (getRequest "/")).rw.Body := by
  decide

/-- C4 (body non-interference), amended: for a handler whose body does not
depend on what the entry `X-Clacks-Overhead` held when it started, the body
after `Clacks next` serves `r` on `w` is byte for byte the body after `next`
serves `r` on `w` without the middleware. -/
theorem Clacks_preserves_body (next : Handler) (w : ResponseRecorder) (r : Request)
    (hind : ∀ w0 e, (next.ServeHTTP (w0.withEntry HeaderName e) r).rw.Body =
      (next.ServeHTTP w0 r).rw.Body) :
    ((Clacks next).ServeHTTP w r).rw.Body = (next.ServeHTTP w r).rw.Body := by
  rw [Clacks_serve, withHeader_Set_HeaderName]
  exact hind w _

/-- C4 on `TestMiddleware`: the body is that of the handler alone. -/
theorem Clacks_preserves_body_witness :
    ((Clacks (helloWorldHandler detectText)).ServeHTTP NewRecorder (getRequest "/")).rw.Body =
      ((helloWorldHandler detectText).ServeHTTP NewRecorder (getRequest "/")).rw.Body :=
  Clacks_preserves_body (helloWorldHandler detectText) NewRecorder (getRequest "/")
    (fun w0 e => by rw [helloWorldHandler_Body, helloWorldHandler_Body]; rfl)

/-- C5, as stated, fails: a handler that writes status 418 when it finds the
header yields 418 when wrapped and the default 200 alone. -/
theorem status_counterexample :
    ((Clacks probeHandler).ServeHTTP NewRecorder (getRequest "/")).rw.Code ≠
      (probeHandler.ServeHTTP NewRecorder (getRequest "/")).rw.Code := by
  decide

/-- C5 (status non-interference), amended: for a handler whose status code does
not depend on what the entry `X-Clacks-Overhead` held when it started, the
status after `Clacks next` serves `r` on `w` is the status after `next` serves
`r` on `w` without the middleware. -/
theorem Clacks_preserves_status (next : Handler) (w : ResponseRecorder) (r : Request)
    (hind : ∀ w0 e, (next.ServeHTTP (w0.withEntry HeaderName e) r).rw.Code =
      (next.ServeHTTP w0 r).rw.Code) :
    ((Clacks next).ServeHTTP w r).rw.Code = (next.ServeHTTP w r).rw.Code := by
  rw [Clacks_serve, withHeader_Set_HeaderName]
  exact hind w _

/-- C5 on `TestMiddleware`: the handler that writes 200 yields 200 when wrapped. -/
theorem Clacks_preserves_status_witness :
    ((Clacks (helloWorldHandler detectText)).ServeHTTP NewRecorder (getRequest "/")).rw.Code =
      ((helloWorldHandler detectText).ServeHTTP NewRecorder (getRequest "/")).rw.Code :=
  Clacks_preserves_status (helloWorldHandler detectText) NewRecorder (getRequest "/")
    (fun w0 e => by rw [helloWorldHandler_Code, helloWorldHandler_Code]; rfl)

/-- C6 (error transparency): `Clacks next` serving `r` on `w` panics exactly when
`next` panics on `r` and the response with the header set, with the same panic
value; and the step of the middleware itself, seen around a handler that does
nothing, does not panic. -/
theorem Clacks_error_transparent (next : Handler) (w : ResponseRecorder) (r : Request) :
    ((Clacks next).ServeHTTP w r).panicked =
        (next.ServeHTTP (w.withHeader (w.Header.Set HeaderName HeaderValue)) r).panicked ∧
      ((Clacks (HandlerFunc fun w0 _ => Outcome.ok w0)).ServeHTTP w r).panicked = none :=
  ⟨rfl, rfl⟩

/-- C7, as stated, fails: a handler that sets `X-Clacks-Overhead` to `a` before
any status is written, and then sets it to `b`, leaves `b`; the value is not `a`
in the header map of the response, nor in the snapshot taken with the status. -/
theorem same_name_counterexample :
    (∀ w0 r, setTwiceHandler.ServeHTTP w0 r =
        (overwriteHandler "b").ServeHTTP (w0.withHeader (w0.Header.Set HeaderName "a")) r) ∧
      ((Clacks setTwiceHandler).ServeHTTP NewRecorder (getRequest "/")).rw.Header.Get
          HeaderName ≠ "a" ∧
      ((Clacks setTwiceHandler).ServeHTTP NewRecorder (getRequest "/")).rw.snapHeader.map
          (fun m => m HeaderName) ≠ some (some ["a"]) :=
  ⟨fun _ _ => rfl, by decide, by decide⟩

/-- C7 (same-name overwrite), amended: when the run of the wrapped handler on `r`
is a prefix `pre`, then `w.Header().Set(HeaderName, v)`, then a remainder `rest`
that leaves the entry `X-Clacks-Overhead` alone, then `Clacks next` serving `r`
on `w` is that run started on `w` with the middleware's value set, and the
value of `X-Clacks-Overhead` in the response afterwards is `v`: the handler's
value replaces the one the middleware set. When the handler's `Set` comes
before the status is written and `rest` snapshots the entry as it found it, the
snapshot taken with the status holds `v` too. -/
theorem handler_value_wins (next rest : Handler) (pre : ResponseRecorder → ResponseRecorder)
    (v : String) (w : ResponseRecorder) (r : Request)
    (hnext : ∀ w0, next.ServeHTTP w0 r =
      rest.ServeHTTP ((pre w0).withHeader ((pre w0).Header.Set HeaderName v)) r)
    (hrest : ∀ w0, (rest.ServeHTTP w0 r).rw.HeaderMap HeaderName = w0.HeaderMap HeaderName) :
    (Clacks next).ServeHTTP w r =
        rest.ServeHTTP
          ((pre (w.withHeader (w.Header.Set HeaderName HeaderValue))).withHeader
            ((pre (w.withHeader (w.Header.Set HeaderName HeaderValue))).Header.Set
              HeaderName v)) r ∧
      ((Clacks next).ServeHTTP w r).rw.HeaderMap HeaderName = some [v] ∧
      ((Clacks next).ServeHTTP w r).rw.Header.Get HeaderName = v ∧
      ((pre (w.withHeader (w.Header.Set HeaderName HeaderValue))).wroteHeader = false →
        (∀ w0, w0.wroteHeader = false → ∀ m, (rest.ServeHTTP w0 r).rw.snapHeader = some m →
          m HeaderName = w0.HeaderMap HeaderName) →
        ∀ m, ((Clacks next).ServeHTTP w r).rw.snapHeader = some m →
          m HeaderName = some [v]) := by
  have hrun : (Clacks next).ServeHTTP w r =
      rest.ServeHTTP
        ((pre (w.withHeader (w.Header.Set HeaderName HeaderValue))).withHeader
          ((pre (w.withHeader (w.Header.Set HeaderName HeaderValue))).Header.Set
            HeaderName v)) r := by
    rw [Clacks_serve, hnext]
  have hset : ((pre (w.withHeader (w.Header.Set HeaderName HeaderValue))).withHeader
      ((pre (w.withHeader (w.Header.Set HeaderName HeaderValue))).Header.Set
        HeaderName v)).HeaderMap HeaderName = some [v] :=
    Set_HeaderName_self (pre (w.withHeader (w.Header.Set HeaderName HeaderValue))).Header v
  have he : ((Clacks next).ServeHTTP w r).rw.HeaderMap HeaderName = some [v] := by
    rw [hrun, hrest]
    exact hset
  refine ⟨hrun, he, Get_of_entry _ v he, ?_⟩
  intro hfresh hsnap m hm
  rw [hrun] at hm
  rw [hsnap
    ((pre (w.withHeader (w.Header.Set HeaderName HeaderValue))).withHeader
      ((pre (w.withHeader (w.Header.Set HeaderName HeaderValue))).Header.Set HeaderName v))
    hfresh m hm]
  exact hset

/-- C7 on a handler that sets `X-Clacks-Overhead: other` and writes status 200,
served on a fresh recorder: the map and the snapshot hold `other`. -/
theorem handler_value_wins_witness :
    (Clacks (overwriteHandler "other")).ServeHTTP NewRecorder (getRequest "/") =
        (HandlerFunc fun w0 _ => w0.WriteHeader 200).ServeHTTP
          ((NewRecorder.withHeader (NewRecorder.Header.Set HeaderName HeaderValue)).withHeader
            ((NewRecorder.withHeader (NewRecorder.Header.Set HeaderName HeaderValue)).Header.Set
              HeaderName "other")) (getRequest "/") ∧
      ((Clacks (overwriteHandler "other")).ServeHTTP NewRecorder (getRequest "/")).rw.HeaderMap
          HeaderName = some ["other"] ∧
      ((Clacks (overwriteHandler "other")).ServeHTTP NewRecorder (getRequest "/")).rw.Header.Get
          HeaderName = "other" ∧
      ∀ m, ((Clacks (overwriteHandler "other")).ServeHTTP NewRecorder
          (getRequest "/")).rw.snapHeader = some m → m HeaderName = some ["other"] :=
  have t := handler_value_wins (overwriteHandler "other")
    (HandlerFunc fun w0 _ => w0.WriteHeader 200)
    id "other" NewRecorder (getRequest "/") (fun _ => rfl)
    (fun w0 => by rw [show (HandlerFunc fun w1 _ => w1.WriteHeader 200).ServeHTTP w0
      (getRequest "/") = w0.WriteHeader 200 from rfl, WriteHeader_HeaderMap])
  ⟨t.1, t.2.1, t.2.2.1, t.2.2.2 rfl (fun w0 hw m hm => by
    rw [show (HandlerFunc fun w1 _ => w1.WriteHeader 200).ServeHTTP w0
      (getRequest "/") = w0.WriteHeader 200 from rfl,
      WriteHeader_snap w0 200 (by decide) (by decide) hw] at hm
    cases hm
    rfl)⟩

/-- C8, as stated, fails: behind a router whose route `/hello` goes to a handler
that sets `X-Clacks-Overhead` itself, a request for `/hello` served through the
wrapped router does not carry `GNU Terry Pratchett`. -/
theorem router_counterexample :
    ((Clacks (exactRouter [("/hello", overwriteHandler "other"),
        ("/world", writeHandler detectText "world")] notFound)).ServeHTTP NewRecorder
          (getRequest "/hello")).rw.Header.Get HeaderName ≠ HeaderValue := by
  decide

/-- C8 (multi-route consistency), amended: for a router that dispatches each
path of `routes` to its handler, and a request `r` whose path is that of the
route `(p, h)`, serving `r` through `Clacks router` has the outcome of serving it
through `Clacks h`; the header is `GNU Terry Pratchett` when `h` leaves that
entry as it finds it, and the status and the body are those `h` produces for `r`
when they do not depend on what that entry held when `h` started. -/
theorem Clacks_router (router : Handler) (routes : List (String × Handler))
    (hdispatch : ∀ p h, (p, h) ∈ routes → ∀ w r, r.Path = p →
      router.ServeHTTP w r = h.ServeHTTP w r)
    (p : String) (h : Handler) (hmem : (p, h) ∈ routes)
    (w : ResponseRecorder) (r : Request) (hpath : r.Path = p) :
    (Clacks router).ServeHTTP w r = (Clacks h).ServeHTTP w r ∧
      ((∀ w0, (h.ServeHTTP w0 r).rw.HeaderMap HeaderName = w0.HeaderMap HeaderName) →
        ((Clacks router).ServeHTTP w r).rw.Header.Get HeaderName = HeaderValue) ∧
      ((∀ w0 e, (h.ServeHTTP (w0.withEntry HeaderName e) r).rw.Code =
          (h.ServeHTTP w0 r).rw.Code) →
        ((Clacks router).ServeHTTP w r).rw.Code = (h.ServeHTTP w r).rw.Code) ∧
      ((∀ w0 e, (h.ServeHTTP (w0.withEntry HeaderName e) r).rw.Body =
          (h.ServeHTTP w0 r).rw.Body) →
        ((Clacks router).ServeHTTP w r).rw.Body = (h.ServeHTTP w r).rw.Body) := by
  have hsame : (Clacks router).ServeHTTP w r = (Clacks h).ServeHTTP w r := by
    rw [Clacks_serve, Clacks_serve]
    exact hdispatch p h hmem _ r hpath
  refine ⟨hsame, ?_, ?_, ?_⟩
  · intro hkeep
    rw [hsame]
    apply Get_of_entry
    rw [Clacks_serve]
    show (h.ServeHTTP _ r).rw.HeaderMap HeaderName = _
    rw [hkeep]
    exact Set_HeaderName_self w.Header HeaderValue
  · intro hind
    rw [hsame, Clacks_serve, withHeader_Set_HeaderName]
    exact hind w _
  · intro hind
    rw [hsame, Clacks_serve, withHeader_Set_HeaderName]
    exact hind w _

/-- C8 on `TestMiddlewareWithServeMux`: the route `/world` behind the wrapped
router answers as its wrapped handler does, with the header, status 200 and the
body `world`. -/
theorem Clacks_router_witness :
    (Clacks (testMux detectText)).ServeHTTP NewRecorder (getRequest "/world") =
        (Clacks (writeHandler detectText "world")).ServeHTTP NewRecorder (getRequest "/world") ∧
      ((Clacks (testMux detectText)).ServeHTTP NewRecorder (getRequest "/world")).rw.Header.Get
          HeaderName = HeaderValue ∧
      ((Clacks (testMux detectText)).ServeHTTP NewRecorder (getRequest "/world")).rw.Code =
        ((writeHandler detectText "world").ServeHTTP NewRecorder (getRequest "/world")).rw.Code ∧
      ((Clacks (testMux detectText)).ServeHTTP NewRecorder (getRequest "/world")).rw.Body =
        ((writeHandler detectText "world").ServeHTTP NewRecorder (getRequest "/world")).rw.Body :=
  have t := Clacks_router (testMux detectText)
    [("/hello", writeHandler detectText "hello"), ("/world", writeHandler detectText "world")]
    (fun p h hmem w r hpath => testMux_dispatch detectText p h hmem w r hpath)
    "/world" (writeHandler detectText "world") (by simp) NewRecorder (getRequest "/world") rfl
  ⟨t.1, t.2.1 (fun w0 => writeHandler_entry detectText "world" w0 _),
    t.2.2.1 (fun w0 e => by rw [writeHandler_Code, writeHandler_Code]; rfl),
    t.2.2.2 (fun w0 e => by rw [writeHandler_Body, writeHandler_Body]; rfl)⟩

/-- C9 (frame of the middleware's own step): there is one response `w1` that
every wrapped handler is run on, together with the same request `r`; `w1` has
the status, the body and the other fields of `w`, and at every header key `k`
other than `X-Clacks-Overhead` the values `w` has at `k`. -/
theorem Clacks_frame (w : ResponseRecorder) (r : Request) (k : String)
    (hk : k ≠ HeaderName) :
    ∃ w1, (∀ next : Handler, (Clacks next).ServeHTTP w r = next.ServeHTTP w1 r) ∧
      w1.Code = w.Code ∧ w1.Body = w.Body ∧ w1.Flushed = w.Flushed ∧
      w1.snapHeader = w.snapHeader ∧ w1.wroteHeader = w.wroteHeader ∧
      w1.HeaderMap k = w.HeaderMap k :=
  ⟨w.withHeader (w.Header.Set HeaderName HeaderValue), fun _ => rfl, rfl, rfl, rfl, rfl, rfl,
    Set_HeaderName_other w.Header HeaderValue k hk⟩

/-- C9 on a recorder that already carries `Content-Type`: the entry reaches the
wrapped handler unchanged. -/
theorem Clacks_frame_witness :
    ∃ w1, (∀ next : Handler, (Clacks next).ServeHTTP
          (NewRecorder.withEntry "Content-Type" (some ["text/html"])) (getRequest "/") =
        next.ServeHTTP w1 (getRequest "/")) ∧
      w1.Code = (NewRecorder.withEntry "Content-Type" (some ["text/html"])).Code ∧
      w1.Body = (NewRecorder.withEntry "Content-Type" (some ["text/html"])).Body ∧
      w1.Flushed = (NewRecorder.withEntry "Content-Type" (some ["text/html"])).Flushed ∧
      w1.snapHeader = (NewRecorder.withEntry "Content-Type" (some ["text/html"])).snapHeader ∧
      w1.wroteHeader = (NewRecorder.withEntry "Content-Type" (some ["text/html"])).wroteHeader ∧
      w1.HeaderMap "Content-Type" =
        (NewRecorder.withEntry "Content-Type" (some ["text/html"])).HeaderMap "Content-Type" :=
  Clacks_frame (NewRecorder.withEntry "Content-Type" (some ["text/html"])) (getRequest "/")
    "Content-Type" (by decide)

/-- C10 (double wrapping is idempotent): `Clacks (Clacks next)` is the handler
`Clacks next`, so serving `r` on `w` has the same outcome through either; and
`next` is run on `w` with `X-Clacks-Overhead` holding the single value
`GNU Terry Pratchett`, not a duplicated one. -/
theorem Clacks_idempotent (next : Handler) (w : ResponseRecorder) (r : Request) :
    Clacks (Clacks next) = Clacks next ∧
      (Clacks (Clacks next)).ServeHTTP w r = (Clacks next).ServeHTTP w r ∧
      (Clacks (Clacks next)).ServeHTTP w r =
        next.ServeHTTP (w.withHeader (w.Header.Set HeaderName HeaderValue)) r ∧
      (w.withHeader (w.Header.Set HeaderName HeaderValue)).HeaderMap HeaderName =
        some [HeaderValue] := by
  have hserve : ∀ w0 r0, (Clacks (Clacks next)).ServeHTTP w0 r0 = (Clacks next).ServeHTTP w0 r0 := by
    intro w0 r0
    rw [Clacks_serve, Clacks_serve, withHeader_Set_twice, Clacks_serve]
  have hfun : Clacks (Clacks next) = Clacks next := by
    have h1 : (Clacks (Clacks next)).ServeHTTP = (Clacks next).ServeHTTP := by
      funext w0 r0
      exact hserve w0 r0
    cases hc : Clacks (Clacks next) with
    | mk f =>
      cases hd : Clacks next with
      | mk g =>
        rw [hc, hd] at h1
        exact congrArg Handler.mk h1
  exact ⟨hfun, hserve w r, by rw [hserve, Clacks_serve], Set_HeaderName_self w.Header HeaderValue⟩

end clacks
